import Mathlib

/-! Shallow embedding of `src/main.go` of the juiceworks-discord bot.

External Discord API calls are modelled by a `World` of response
oracles; each command handler becomes a pure function from a `World`
and an `Interaction` to the ordered list of observable effects it
performs (interaction responses, log lines, API calls), paired with an
`Outcome` naming the `return` site taken in the Go source. Interaction
responses in the source are all of kind ChannelMessageWithSource; the
`Bool` on `Effect.respond` records the ephemeral flag. The delivery of
a response itself failing (`logResponseErr`) is not modelled: no claim
depends on it. -/

-- Configuration constants, src/main.go lines 15-21.

def JuiceworksGuildId : String := "1256628364987600977"

def InternalChannelId : String := "1256628365771669556"

def JuiceworksRoleId : String := "1257752490372370503"

def ProjectCreatorRoleId : String := "1259262543034060830"

def ServicesRoleId : String := "1260738526425780264"

-- discordgo constants used by the program: PermissionViewChannel = 1 << 10,
-- PermissionSendMessages = 1 << 11. Both are small nonnegative int64
-- constants, so the bitmasks are represented as Nat.

def PermissionViewChannel : Nat := 1024

def PermissionSendMessages : Nat := 2048

-- discordgo PermissionOverwriteTypeRole / PermissionOverwriteTypeMember.

inductive PermissionOverwriteType where
  | role
  | member
deriving DecidableEq

-- discordgo User: the program uses its ID, its Mention() form and its
-- String() form (the username).

structure User where
  id : String
  username : String
deriving DecidableEq

/-- discordgo User.Mention returns the form with the id between angled
brackets after an at sign. -/
def User.mention (u : User) : String := "<@" ++ u.id ++ ">"

-- discordgo Member: the program only reads the Roles field, both on the
-- invoking interaction member and on the member fetched by GuildMember.

structure Member where
  roles : List String
deriving DecidableEq

-- discordgo Channel: the program reads ID and Name of the channel
-- returned by GuildChannelCreate.

structure Channel where
  id : String
  name : String
deriving DecidableEq

-- discordgo ApplicationCommandOptionType; the program compares against
-- ApplicationCommandOptionString and ApplicationCommandOptionUser, every
-- other option type is collapsed into `other`.

inductive ApplicationCommandOptionType where
  | string
  | user
  | other
deriving DecidableEq

-- One interaction option (discordgo ApplicationCommandInteractionDataOption):
-- a dynamically typed value whose Type tag the handlers inspect.

inductive CmdOption where
  | str (value : String)
  | user (value : User)
  | other
deriving DecidableEq

def CmdOption.optType : CmdOption → ApplicationCommandOptionType
  | .str _ => .string
  | .user _ => .user
  | .other => .other

/-- discordgo StringValue; only called after the handler has checked the
option's Type, so the default branch is unreachable in the program. -/
def CmdOption.stringValue : CmdOption → String
  | .str v => v
  | _ => ""

/-- discordgo UserValue; only called after the handler has checked the
option's Type, so the default branch is unreachable in the program. -/
def CmdOption.userValue : CmdOption → User
  | .user v => v
  | _ => { id := "", username := "" }

-- One inbound interaction, with the fields the program reads:
-- GuildID, ChannelID, Member, ApplicationCommandData().Name and
-- ApplicationCommandData().Options.

structure Interaction where
  guildID : String
  channelID : String
  member : Option Member
  commandName : String
  options : List CmdOption
deriving DecidableEq

-- Observable effects, in the order the program performs them.

inductive Effect where
  | respond (content : String) (ephemeral : Bool)
  | logLine (msg : String)
  | apiGuildMember (guildID userID : String)
  | apiRoleAdd (guildID userID roleID : String)
  | apiChannelCreate (guildID name : String)
  | apiPermSet (channelID targetID : String) (kind : PermissionOverwriteType)
      (allow deny : Nat)
deriving DecidableEq

-- The external Discord API, as oracles giving each call's result:
-- GuildMember, GuildMemberRoleAdd (an error or success),
-- GuildChannelCreate, ChannelPermissionSet (an error or success).

structure World where
  guildMember : String → String → Except String Member
  roleAdd : String → String → String → Option String
  channelCreate : String → String → Except String Channel
  permissionSet : String → String → PermissionOverwriteType → Nat → Nat → Option String

-- The return site a handler run ends at, one tag per `return` in the
-- Go source of the two handlers.

inductive Outcome where
  | guardFailed
  | internalChannelRejected
  | optionsRejected
  | nameLengthRejected
  | memberFetchFailed
  | roleGrantFailed
  | channelCreateFailed
  | permissionFailed
  | completed
deriving DecidableEq

-- Effect classifiers.

def isRespond : Effect → Bool
  | .respond _ _ => true
  | _ => false

def isLogLine : Effect → Bool
  | .logLine _ => true
  | _ => false

def isApiCall : Effect → Bool
  | .apiGuildMember _ _ => true
  | .apiRoleAdd _ _ _ => true
  | .apiChannelCreate _ _ => true
  | .apiPermSet _ _ _ _ _ => true
  | _ => false

def isPermSet : Effect → Bool
  | .apiPermSet _ _ _ _ _ => true
  | _ => false

def isRoleAdd : Effect → Bool
  | .apiRoleAdd _ _ _ => true
  | _ => false

def countResponses (t : List Effect) : Nat := (t.filter isRespond).length

def countLogs (t : List Effect) : Nat := (t.filter isLogLine).length

/-- Go unicode.IsSpace, i.e. the Unicode White_Space code points, used by
strings.TrimSpace in src/main.go line 224. -/
def isGoSpace (c : Char) : Bool :=
  let n := c.toNat
  n == 9 || n == 10 || n == 11 || n == 12 || n == 13 || n == 32 ||
  n == 0x85 || n == 0xA0 || n == 0x1680 ||
  (decide (0x2000 ≤ n) && decide (n ≤ 0x200A)) ||
  n == 0x2028 || n == 0x2029 || n == 0x202F || n == 0x205F || n == 0x3000

/-- Go strings.TrimSpace: drop Unicode white space from both ends. -/
def goTrimSpace (s : String) : String :=
  String.mk (((s.data.dropWhile isGoSpace).reverse.dropWhile isGoSpace).reverse)

-- Go strings.ToLower maps every rune through unicode.ToLower, the
-- Unicode simple lowercase mapping (UnicodeData field 13), which Go
-- encodes as the range table unicode.CaseRanges. The same mapping is
-- embedded below as a chain over the ranges of that table: every code
-- point lo, lo + stride, ..., hi lower-cases by adding the range's
-- delta, and a code point in no range is unchanged. The chain was
-- generated from the Unicode character database and checked
-- exhaustively against the simple lowercase mapping of every code
-- point.

set_option maxRecDepth 4096 in
/-- The lowercase delta of Go unicode.CaseRanges for one code point:
0 when the code point has no simple lowercase mapping. -/
def goLowerDelta (n : Nat) : Int :=
  if 65 ≤ n ∧ n ≤ 90 then 32 else
  if 192 ≤ n ∧ n ≤ 214 then 32 else
  if 216 ≤ n ∧ n ≤ 222 then 32 else
  if 256 ≤ n ∧ n ≤ 302 ∧ (n - 256) % 2 = 0 then 1 else
  if n = 304 then -199 else
  if 306 ≤ n ∧ n ≤ 310 ∧ (n - 306) % 2 = 0 then 1 else
  if 313 ≤ n ∧ n ≤ 327 ∧ (n - 313) % 2 = 0 then 1 else
  if 330 ≤ n ∧ n ≤ 374 ∧ (n - 330) % 2 = 0 then 1 else
  if n = 376 then -121 else
  if 377 ≤ n ∧ n ≤ 381 ∧ (n - 377) % 2 = 0 then 1 else
  if n = 385 then 210 else
  if 386 ≤ n ∧ n ≤ 388 ∧ (n - 386) % 2 = 0 then 1 else
  if n = 390 then 206 else
  if n = 391 then 1 else
  if 393 ≤ n ∧ n ≤ 394 then 205 else
  if n = 395 then 1 else
  if n = 398 then 79 else
  if n = 399 then 202 else
  if n = 400 then 203 else
  if n = 401 then 1 else
  if n = 403 then 205 else
  if n = 404 then 207 else
  if n = 406 then 211 else
  if n = 407 then 209 else
  if n = 408 then 1 else
  if n = 412 then 211 else
  if n = 413 then 213 else
  if n = 415 then 214 else
  if 416 ≤ n ∧ n ≤ 420 ∧ (n - 416) % 2 = 0 then 1 else
  if n = 422 then 218 else
  if n = 423 then 1 else
  if n = 425 then 218 else
  if n = 428 then 1 else
  if n = 430 then 218 else
  if n = 431 then 1 else
  if 433 ≤ n ∧ n ≤ 434 then 217 else
  if 435 ≤ n ∧ n ≤ 437 ∧ (n - 435) % 2 = 0 then 1 else
  if n = 439 then 219 else
  if n = 440 then 1 else
  if n = 444 then 1 else
  if n = 452 then 2 else
  if n = 453 then 1 else
  if n = 455 then 2 else
  if n = 456 then 1 else
  if n = 458 then 2 else
  if 459 ≤ n ∧ n ≤ 475 ∧ (n - 459) % 2 = 0 then 1 else
  if 478 ≤ n ∧ n ≤ 494 ∧ (n - 478) % 2 = 0 then 1 else
  if n = 497 then 2 else
  if 498 ≤ n ∧ n ≤ 500 ∧ (n - 498) % 2 = 0 then 1 else
  if n = 502 then -97 else
  if n = 503 then -56 else
  if 504 ≤ n ∧ n ≤ 542 ∧ (n - 504) % 2 = 0 then 1 else
  if n = 544 then -130 else
  if 546 ≤ n ∧ n ≤ 562 ∧ (n - 546) % 2 = 0 then 1 else
  if n = 570 then 10795 else
  if n = 571 then 1 else
  if n = 573 then -163 else
  if n = 574 then 10792 else
  if n = 577 then 1 else
  if n = 579 then -195 else
  if n = 580 then 69 else
  if n = 581 then 71 else
  if 582 ≤ n ∧ n ≤ 590 ∧ (n - 582) % 2 = 0 then 1 else
  if 880 ≤ n ∧ n ≤ 882 ∧ (n - 880) % 2 = 0 then 1 else
  if n = 886 then 1 else
  if n = 895 then 116 else
  if n = 902 then 38 else
  if 904 ≤ n ∧ n ≤ 906 then 37 else
  if n = 908 then 64 else
  if 910 ≤ n ∧ n ≤ 911 then 63 else
  if 913 ≤ n ∧ n ≤ 929 then 32 else
  if 931 ≤ n ∧ n ≤ 939 then 32 else
  if n = 975 then 8 else
  if 984 ≤ n ∧ n ≤ 1006 ∧ (n - 984) % 2 = 0 then 1 else
  if n = 1012 then -60 else
  if n = 1015 then 1 else
  if n = 1017 then -7 else
  if n = 1018 then 1 else
  if 1021 ≤ n ∧ n ≤ 1023 then -130 else
  if 1024 ≤ n ∧ n ≤ 1039 then 80 else
  if 1040 ≤ n ∧ n ≤ 1071 then 32 else
  if 1120 ≤ n ∧ n ≤ 1152 ∧ (n - 1120) % 2 = 0 then 1 else
  if 1162 ≤ n ∧ n ≤ 1214 ∧ (n - 1162) % 2 = 0 then 1 else
  if n = 1216 then 15 else
  if 1217 ≤ n ∧ n ≤ 1229 ∧ (n - 1217) % 2 = 0 then 1 else
  if 1232 ≤ n ∧ n ≤ 1326 ∧ (n - 1232) % 2 = 0 then 1 else
  if 1329 ≤ n ∧ n ≤ 1366 then 48 else
  if 4256 ≤ n ∧ n ≤ 4293 then 7264 else
  if n = 4295 then 7264 else
  if n = 4301 then 7264 else
  if 5024 ≤ n ∧ n ≤ 5103 then 38864 else
  if 5104 ≤ n ∧ n ≤ 5109 then 8 else
  if 7312 ≤ n ∧ n ≤ 7354 then -3008 else
  if 7357 ≤ n ∧ n ≤ 7359 then -3008 else
  if 7680 ≤ n ∧ n ≤ 7828 ∧ (n - 7680) % 2 = 0 then 1 else
  if n = 7838 then -7615 else
  if 7840 ≤ n ∧ n ≤ 7934 ∧ (n - 7840) % 2 = 0 then 1 else
  if 7944 ≤ n ∧ n ≤ 7951 then -8 else
  if 7960 ≤ n ∧ n ≤ 7965 then -8 else
  if 7976 ≤ n ∧ n ≤ 7983 then -8 else
  if 7992 ≤ n ∧ n ≤ 7999 then -8 else
  if 8008 ≤ n ∧ n ≤ 8013 then -8 else
  if 8025 ≤ n ∧ n ≤ 8031 ∧ (n - 8025) % 2 = 0 then -8 else
  if 8040 ≤ n ∧ n ≤ 8047 then -8 else
  if 8072 ≤ n ∧ n ≤ 8079 then -8 else
  if 8088 ≤ n ∧ n ≤ 8095 then -8 else
  if 8104 ≤ n ∧ n ≤ 8111 then -8 else
  if 8120 ≤ n ∧ n ≤ 8121 then -8 else
  if 8122 ≤ n ∧ n ≤ 8123 then -74 else
  if n = 8124 then -9 else
  if 8136 ≤ n ∧ n ≤ 8139 then -86 else
  if n = 8140 then -9 else
  if 8152 ≤ n ∧ n ≤ 8153 then -8 else
  if 8154 ≤ n ∧ n ≤ 8155 then -100 else
  if 8168 ≤ n ∧ n ≤ 8169 then -8 else
  if 8170 ≤ n ∧ n ≤ 8171 then -112 else
  if n = 8172 then -7 else
  if 8184 ≤ n ∧ n ≤ 8185 then -128 else
  if 8186 ≤ n ∧ n ≤ 8187 then -126 else
  if n = 8188 then -9 else
  if n = 8486 then -7517 else
  if n = 8490 then -8383 else
  if n = 8491 then -8262 else
  if n = 8498 then 28 else
  if 8544 ≤ n ∧ n ≤ 8559 then 16 else
  if n = 8579 then 1 else
  if 9398 ≤ n ∧ n ≤ 9423 then 26 else
  if 11264 ≤ n ∧ n ≤ 11311 then 48 else
  if n = 11360 then 1 else
  if n = 11362 then -10743 else
  if n = 11363 then -3814 else
  if n = 11364 then -10727 else
  if 11367 ≤ n ∧ n ≤ 11371 ∧ (n - 11367) % 2 = 0 then 1 else
  if n = 11373 then -10780 else
  if n = 11374 then -10749 else
  if n = 11375 then -10783 else
  if n = 11376 then -10782 else
  if n = 11378 then 1 else
  if n = 11381 then 1 else
  if 11390 ≤ n ∧ n ≤ 11391 then -10815 else
  if 11392 ≤ n ∧ n ≤ 11490 ∧ (n - 11392) % 2 = 0 then 1 else
  if 11499 ≤ n ∧ n ≤ 11501 ∧ (n - 11499) % 2 = 0 then 1 else
  if n = 11506 then 1 else
  if 42560 ≤ n ∧ n ≤ 42604 ∧ (n - 42560) % 2 = 0 then 1 else
  if 42624 ≤ n ∧ n ≤ 42650 ∧ (n - 42624) % 2 = 0 then 1 else
  if 42786 ≤ n ∧ n ≤ 42798 ∧ (n - 42786) % 2 = 0 then 1 else
  if 42802 ≤ n ∧ n ≤ 42862 ∧ (n - 42802) % 2 = 0 then 1 else
  if 42873 ≤ n ∧ n ≤ 42875 ∧ (n - 42873) % 2 = 0 then 1 else
  if n = 42877 then -35332 else
  if 42878 ≤ n ∧ n ≤ 42886 ∧ (n - 42878) % 2 = 0 then 1 else
  if n = 42891 then 1 else
  if n = 42893 then -42280 else
  if 42896 ≤ n ∧ n ≤ 42898 ∧ (n - 42896) % 2 = 0 then 1 else
  if 42902 ≤ n ∧ n ≤ 42920 ∧ (n - 42902) % 2 = 0 then 1 else
  if n = 42922 then -42308 else
  if n = 42923 then -42319 else
  if n = 42924 then -42315 else
  if n = 42925 then -42305 else
  if n = 42926 then -42308 else
  if n = 42928 then -42258 else
  if n = 42929 then -42282 else
  if n = 42930 then -42261 else
  if n = 42931 then 928 else
  if 42932 ≤ n ∧ n ≤ 42946 ∧ (n - 42932) % 2 = 0 then 1 else
  if n = 42948 then -48 else
  if n = 42949 then -42307 else
  if n = 42950 then -35384 else
  if 42951 ≤ n ∧ n ≤ 42953 ∧ (n - 42951) % 2 = 0 then 1 else
  if n = 42960 then 1 else
  if 42966 ≤ n ∧ n ≤ 42968 ∧ (n - 42966) % 2 = 0 then 1 else
  if n = 42997 then 1 else
  if 65313 ≤ n ∧ n ≤ 65338 then 32 else
  if 66560 ≤ n ∧ n ≤ 66599 then 40 else
  if 66736 ≤ n ∧ n ≤ 66771 then 40 else
  if 66928 ≤ n ∧ n ≤ 66938 then 39 else
  if 66940 ≤ n ∧ n ≤ 66954 then 39 else
  if 66956 ≤ n ∧ n ≤ 66962 then 39 else
  if 66964 ≤ n ∧ n ≤ 66965 then 39 else
  if 68736 ≤ n ∧ n ≤ 68786 then 64 else
  if 71840 ≤ n ∧ n ≤ 71871 then 32 else
  if 93760 ≤ n ∧ n ≤ 93791 then 32 else
  if 125184 ≤ n ∧ n ≤ 125217 then 34 else
  0

/-- Go unicode.ToLower: add the code point's lowercase delta. -/
def goToLowerChar (c : Char) : Char :=
  let d := goLowerDelta c.toNat
  if d = 0 then c else Char.ofNat (Int.toNat (Int.ofNat c.toNat + d))

/-- Go strings.ToLower: apply unicode.ToLower to every rune. -/
def goToLower (s : String) : String :=
  String.mk (s.data.map goToLowerChar)

/-- Go strings.ReplaceAll(s, " ", "-"): the pattern is the single space
character, so replacing every occurrence is a character map. -/
def goReplaceSpaces (s : String) : String :=
  String.mk (s.data.map (fun c => if c = ' ' then '-' else c))

/-- The channel-name clean-up of src/main.go lines 223-226: TrimSpace,
then ToLower, then ReplaceAll space to hyphen, in that order. -/
def normalizeChannelName (name : String) : String :=
  goReplaceSpaces (goToLower (goTrimSpace name))

/-- The linear role scans of src/main.go lines 147-153 and 326-332. -/
def hasRole : List String → String → Bool
  | [], _ => false
  | r :: rest, target => if r = target then true else hasRole rest target

/-- Roles of an optional member; the Go code only dereferences
i.Member.Roles after the nil check, where the member is present. -/
def memberRoles : Option Member → List String
  | none => []
  | some m => m.roles

/-- checkCommandCaller, src/main.go lines 312-345: the pair is the
effect trace and the returned error (none on success). -/
def checkCommandCaller (i : Interaction) : List Effect × Option String :=
  if i.guildID ≠ JuiceworksGuildId ∨ i.member = none then
    ([Effect.respond "This command can only be used in the Juiceworks Discord server." true],
      some "command was called outside of the Juiceworks Discord server")
  else if hasRole (memberRoles i.member) JuiceworksRoleId = false then
    ([Effect.respond "This command can only be used by Juiceworks members." true],
      some "command was called by a non-Juiceworks member")
  else
    ([], none)

-- channelPermissionSetup, src/main.go lines 276-284. The Session and
-- Interaction fields are ambient in the model (the World argument and
-- the single interaction being handled) and carry no data of their own.

structure channelPermissionSetup where
  channelID : String
  targetID : String
  targetType : PermissionOverwriteType
  allow : Nat
  deny : Nat
deriving DecidableEq

/-- channelPermissions, src/main.go lines 287-302: one
ChannelPermissionSet call; on failure respond with the error text, log
it, and return the error to the caller; on success stay silent. -/
def channelPermissions (w : World) (cps : channelPermissionSetup) :
    List Effect × Option String :=
  match w.permissionSet cps.channelID cps.targetID cps.targetType cps.allow cps.deny with
  | some e =>
    ([Effect.apiPermSet cps.channelID cps.targetID cps.targetType cps.allow cps.deny,
      Effect.respond ("Error setting channel permissions: " ++ e) true,
      Effect.logLine ("Error setting channel permissions: " ++ e)],
     some e)
  | none =>
    ([Effect.apiPermSet cps.channelID cps.targetID cps.targetType cps.allow cps.deny],
     none)

/-- addMember after a successful (or skipped) role grant, src/main.go
lines 170-199: the channel permission overwrite on the invoking channel,
then the success log and response. `t` is the trace accumulated so far. -/
def addMemberPermission (w : World) (t : List Effect) (channelID : String)
    (user : User) : List Effect × Outcome :=
  match channelPermissions w
      { channelID := channelID, targetID := user.id,
        targetType := PermissionOverwriteType.member,
        allow := PermissionViewChannel ||| PermissionSendMessages, deny := 0 } with
  | (pt, some e) =>
    (t ++ pt ++ [Effect.logLine ("Error adding member to channel: " ++ e),
                 Effect.respond ("Error adding member to channel: " ++ e) true],
     Outcome.permissionFailed)
  | (pt, none) =>
    (t ++ pt ++ [Effect.logLine ("Added " ++ user.username ++ " (" ++ User.mention user
                   ++ ") to channel " ++ channelID ++ "."),
                 Effect.respond ("Added " ++ User.mention user ++ " to the channel.") true],
     Outcome.completed)

/-- addMember from the GuildMember fetch on, src/main.go lines 132-199:
fetch the target's roles, scan for the services role, grant the Project
Creator role when absent, then fall through to the channel overwrite. -/
def addMemberWithUser (w : World) (channelID : String) (user : User) :
    List Effect × Outcome :=
  match w.guildMember JuiceworksGuildId user.id with
  | .error e =>
    ([Effect.apiGuildMember JuiceworksGuildId user.id,
      Effect.logLine ("Error reading member roles: " ++ e),
      Effect.respond ("Error reading member roles: " ++ e) true],
     Outcome.memberFetchFailed)
  | .ok m =>
    if hasRole m.roles ServicesRoleId then
      addMemberPermission w [Effect.apiGuildMember JuiceworksGuildId user.id] channelID user
    else
      match w.roleAdd JuiceworksGuildId user.id ProjectCreatorRoleId with
      | some e =>
        ([Effect.apiGuildMember JuiceworksGuildId user.id,
          Effect.apiRoleAdd JuiceworksGuildId user.id ProjectCreatorRoleId,
          Effect.logLine ("Error granting Project Creator role: " ++ e),
          Effect.respond ("Error granting Project Creator role: " ++ e) true],
         Outcome.roleGrantFailed)
      | none =>
        addMemberPermission w
          [Effect.apiGuildMember JuiceworksGuildId user.id,
           Effect.apiRoleAdd JuiceworksGuildId user.id ProjectCreatorRoleId]
          channelID user

/-- The body of addMember after the caller check, src/main.go lines
106-199: internal-channel rejection, option validation, then the
workflow on the target user. -/
def addMemberBody (w : World) (i : Interaction) : List Effect × Outcome :=
  if i.channelID = InternalChannelId then
    ([Effect.respond "This command cannot be used in the internal channel." true],
     Outcome.internalChannelRejected)
  else if i.options.length = 0 ∨
      (i.options.headD CmdOption.other).optType ≠ ApplicationCommandOptionType.user then
    ([Effect.respond "This command requires a user." true], Outcome.optionsRejected)
  else
    addMemberWithUser w i.channelID (i.options.headD CmdOption.other).userValue

/-- addMember, src/main.go lines 100-200. -/
def addMember (w : World) (i : Interaction) : List Effect × Outcome :=
  match checkCommandCaller i with
  | (t, some e) =>
    (t ++ [Effect.logLine ("Command caller check failed on addMember: " ++ e)],
     Outcome.guardFailed)
  | (t, none) =>
    let r := addMemberBody w i
    (t ++ r.1, r.2)

/-- makeChannel from GuildChannelCreate on, src/main.go lines 238-273:
create the channel, then the two permission overwrites of the
permissionsToSet slice in order (the loop aborts on the first failure
and channelPermissions has already responded), then the success log and
response. -/
def makeChannelCreate (w : World) (channelName : String) : List Effect × Outcome :=
  match w.channelCreate JuiceworksGuildId channelName with
  | .error e =>
    ([Effect.apiChannelCreate JuiceworksGuildId channelName,
      Effect.respond ("Error creating channel: " ++ e) true],
     Outcome.channelCreateFailed)
  | .ok channel =>
    match channelPermissions w
        { channelID := channel.id, targetID := JuiceworksRoleId,
          targetType := PermissionOverwriteType.role,
          allow := PermissionViewChannel ||| PermissionSendMessages, deny := 0 } with
    | (p1, some _) =>
      ([Effect.apiChannelCreate JuiceworksGuildId channelName] ++ p1,
       Outcome.permissionFailed)
    | (p1, none) =>
      match channelPermissions w
          { channelID := channel.id, targetID := JuiceworksGuildId,
            targetType := PermissionOverwriteType.role,
            allow := 0, deny := PermissionViewChannel } with
      | (p2, some _) =>
        ([Effect.apiChannelCreate JuiceworksGuildId channelName] ++ p1 ++ p2,
         Outcome.permissionFailed)
      | (p2, none) =>
        ([Effect.apiChannelCreate JuiceworksGuildId channelName] ++ p1 ++ p2 ++
           [Effect.logLine ("Created channel: " ++ channel.name),
            Effect.respond ("Created channel: #" ++ channel.name) true],
         Outcome.completed)

/-- makeChannel name handling, src/main.go lines 222-236: normalize the
name and check the Go byte length (len on a string counts UTF-8 bytes)
against the 2..100 range. -/
def makeChannelWithName (w : World) (channelName : String) : List Effect × Outcome :=
  if channelName.utf8ByteSize < 2 ∨ channelName.utf8ByteSize > 100 then
    ([Effect.respond "Channel name must be between 2 and 100 characters." true],
     Outcome.nameLengthRejected)
  else
    makeChannelCreate w channelName

/-- The body of makeChannel after the caller check, src/main.go lines
209-273: option validation, then the name clean-up and the rest. -/
def makeChannelBody (w : World) (i : Interaction) : List Effect × Outcome :=
  if i.options.length = 0 ∨
      (i.options.headD CmdOption.other).optType ≠ ApplicationCommandOptionType.string then
    ([Effect.respond "This command requires a channel name." true], Outcome.optionsRejected)
  else
    makeChannelWithName w
      (normalizeChannelName (i.options.headD CmdOption.other).stringValue)

/-- makeChannel, src/main.go lines 203-273. -/
def makeChannel (w : World) (i : Interaction) : List Effect × Outcome :=
  match checkCommandCaller i with
  | (t, some e) =>
    (t ++ [Effect.logLine ("Command caller check failed on makeChannel: " ++ e)],
     Outcome.guardFailed)
  | (t, none) =>
    let r := makeChannelBody w i
    (t ++ r.1, r.2)

/-- The commandHandlers map, src/main.go lines 23-26. -/
def commandHandlers (name : String) :
    Option (World → Interaction → List Effect × Outcome) :=
  if name = "make-channel" then some makeChannel
  else if name = "add-member" then some addMember
  else none

/-- The interaction-created dispatcher closure, src/main.go lines 59-63:
look the command name up in commandHandlers and run the handler when
one exists, do nothing otherwise. -/
def onInteractionCreate (w : World) (i : Interaction) : List Effect :=
  match commandHandlers i.commandName with
  | some h => (h w i).1
  | none => []

-- Concrete worlds and interactions used by witnesses and counterexamples.

def uAlice : User := { id := "42", username := "alice" }

/-- A world where every external call succeeds; GuildChannelCreate echoes
the requested name back on the created channel. -/
def wAllOk : World :=
  { guildMember := fun _ _ => .ok { roles := [] },
    roleAdd := fun _ _ _ => none,
    channelCreate := fun _ name => .ok { id := "900", name := name },
    permissionSet := fun _ _ _ _ _ => none }

/-- A world where every ChannelPermissionSet call fails. -/
def wPermFail : World :=
  { guildMember := fun _ _ => .ok { roles := [] },
    roleAdd := fun _ _ _ => none,
    channelCreate := fun _ name => .ok { id := "900", name := name },
    permissionSet := fun _ _ _ _ _ => some "boom" }

/-- An authorized add-member invocation outside the internal channel
with a single user option. -/
def iAddOk : Interaction :=
  { guildID := JuiceworksGuildId, channelID := "777",
    member := some { roles := [JuiceworksRoleId] },
    commandName := "add-member", options := [CmdOption.user uAlice] }

/-- An authorized make-channel invocation carrying two string options. -/
def iTwoOptions : Interaction :=
  { guildID := JuiceworksGuildId, channelID := "777",
    member := some { roles := [JuiceworksRoleId] },
    commandName := "make-channel",
    options := [CmdOption.str "my project", CmdOption.str "extra"] }

/-- An authorized make-channel invocation whose channel name is a single
two-byte character. -/
def iEAcute : Interaction :=
  { guildID := JuiceworksGuildId, channelID := "777",
    member := some { roles := [JuiceworksRoleId] },
    commandName := "make-channel", options := [CmdOption.str "é"] }

/-- An invocation from a foreign guild. -/
def iBadGuild : Interaction :=
  { guildID := "555", channelID := "777",
    member := some { roles := [JuiceworksRoleId] },
    commandName := "make-channel", options := [CmdOption.str "my project"] }

/-- An authorized make-channel invocation with a plain valid name. -/
def iMakeOk : Interaction :=
  { guildID := JuiceworksGuildId, channelID := "777",
    member := some { roles := [JuiceworksRoleId] },
    commandName := "make-channel", options := [CmdOption.str "  My Project  "] }

/-- An interaction carrying an unregistered command name. -/
def iPing : Interaction :=
  { guildID := JuiceworksGuildId, channelID := "777",
    member := some { roles := [JuiceworksRoleId] },
    commandName := "ping", options := [] }

/-- An authorized add-member invocation inside the internal channel. -/
def iInternal : Interaction :=
  { guildID := JuiceworksGuildId, channelID := InternalChannelId,
    member := some { roles := [JuiceworksRoleId] },
    commandName := "add-member", options := [CmdOption.user uAlice] }

/-- An authorized make-channel invocation with no options. -/
def iNoOptions : Interaction :=
  { guildID := JuiceworksGuildId, channelID := "777",
    member := some { roles := [JuiceworksRoleId] },
    commandName := "make-channel", options := [] }

/-- An authorized make-channel invocation whose channel name is a single
ASCII character. -/
def iXName : Interaction :=
  { guildID := JuiceworksGuildId, channelID := "777",
    member := some { roles := [JuiceworksRoleId] },
    commandName := "make-channel", options := [CmdOption.str "x"] }

/-- An authorized make-channel invocation whose channel name is the
dotted capital I (U+0130), a two-byte character that Go lower-cases to
the one-byte i. -/
def iTurkishI : Interaction :=
  { guildID := JuiceworksGuildId, channelID := "777",
    member := some { roles := [JuiceworksRoleId] },
    commandName := "make-channel", options := [CmdOption.str "İ"] }

/-- A world whose fetched target member holds the service-provider
role. -/
def wServiceTarget : World :=
  { guildMember := fun _ _ => .ok { roles := [ServicesRoleId] },
    roleAdd := fun _ _ _ => none,
    channelCreate := fun _ name => .ok { id := "900", name := name },
    permissionSet := fun _ _ _ _ _ => none }

-- Helper lemmas shared by several claims.

lemma checkCommandCaller_shape (i : Interaction) :
    checkCommandCaller i = ([], none) ∨
    checkCommandCaller i =
      ([Effect.respond "This command can only be used in the Juiceworks Discord server." true],
       some "command was called outside of the Juiceworks Discord server") ∨
    checkCommandCaller i =
      ([Effect.respond "This command can only be used by Juiceworks members." true],
       some "command was called by a non-Juiceworks member") := by
  unfold checkCommandCaller
  split
  · right; left; rfl
  · split
    · right; right; rfl
    · left; rfl

lemma makeChannel_guard_ok (w : World) (i : Interaction)
    (hG : checkCommandCaller i = ([], none)) :
    makeChannel w i = makeChannelBody w i := by
  unfold makeChannel
  rw [hG]
  simp

lemma addMember_guard_ok (w : World) (i : Interaction)
    (hG : checkCommandCaller i = ([], none)) :
    addMember w i = addMemberBody w i := by
  unfold addMember
  rw [hG]
  simp

lemma addMemberPermission_outcome (w : World) (t : List Effect) (ch : String) (u : User) :
    (addMemberPermission w t ch u).2 = Outcome.permissionFailed ∨
    (addMemberPermission w t ch u).2 = Outcome.completed := by
  unfold addMemberPermission
  split
  · left; rfl
  · right; rfl

lemma addMemberWithUser_outcome (w : World) (ch : String) (u : User) :
    (addMemberWithUser w ch u).2 = Outcome.memberFetchFailed ∨
    (addMemberWithUser w ch u).2 = Outcome.roleGrantFailed ∨
    (addMemberWithUser w ch u).2 = Outcome.permissionFailed ∨
    (addMemberWithUser w ch u).2 = Outcome.completed := by
  unfold addMemberWithUser
  split
  · left; rfl
  · split
    · rcases addMemberPermission_outcome w
        [Effect.apiGuildMember JuiceworksGuildId _] _ _ with h | h
      · right; right; left; exact h
      · right; right; right; exact h
    · split
      · right; left; rfl
      · rcases addMemberPermission_outcome w
          [Effect.apiGuildMember JuiceworksGuildId _,
           Effect.apiRoleAdd JuiceworksGuildId _ ProjectCreatorRoleId] _ _ with h | h
        · right; right; left; exact h
        · right; right; right; exact h

lemma makeChannelCreate_outcome (w : World) (n : String) :
    (makeChannelCreate w n).2 = Outcome.channelCreateFailed ∨
    (makeChannelCreate w n).2 = Outcome.permissionFailed ∨
    (makeChannelCreate w n).2 = Outcome.completed := by
  unfold makeChannelCreate
  split
  · left; rfl
  · split
    · right; left; rfl
    · split
      · right; left; rfl
      · right; right; rfl

lemma guard_success_iff (i : Interaction) :
    checkCommandCaller i = ([], none) ↔
      (i.guildID = JuiceworksGuildId ∧ i.member.isSome = true ∧
       hasRole (memberRoles i.member) JuiceworksRoleId = true) := by
  unfold checkCommandCaller
  by_cases h1 : i.guildID ≠ JuiceworksGuildId ∨ i.member = none
  · rw [if_pos h1]
    constructor
    · intro h
      simp at h
    · rintro ⟨hg, hm, _⟩
      rcases h1 with h | h
      · exact absurd hg h
      · rw [h] at hm
        simp at hm
  · push_neg at h1
    obtain ⟨hg, hm⟩ := h1
    rw [if_neg (by push_neg; exact ⟨hg, hm⟩)]
    by_cases h2 : hasRole (memberRoles i.member) JuiceworksRoleId = false
    · rw [if_pos h2]
      constructor
      · intro h
        simp at h
      · rintro ⟨_, _, hr⟩
        rw [hr] at h2
        cases h2
    · rw [if_neg h2]
      simp only [Bool.not_eq_false] at h2
      simp [hg, h2, Option.isSome_iff_ne_none, hm]

/-- Claim C4: the Authorization Guard succeeds silently iff the
interaction's guild identifier equals the configured guild identifier,
the invoking member is non-null and the member's role set contains the
community-membership role; the guild/member failure and the role-only
failure send their specific ephemeral responses, and on either failure
the calling handler makes no further external calls. -/
theorem C4_authorization_guard (w : World) (i : Interaction) :
    (checkCommandCaller i = ([], none) ↔
      (i.guildID = JuiceworksGuildId ∧ i.member.isSome = true ∧
       hasRole (memberRoles i.member) JuiceworksRoleId = true)) ∧
    ((i.guildID ≠ JuiceworksGuildId ∨ i.member = none) →
      checkCommandCaller i =
        ([Effect.respond "This command can only be used in the Juiceworks Discord server." true],
         some "command was called outside of the Juiceworks Discord server")) ∧
    (i.guildID = JuiceworksGuildId → i.member.isSome = true →
      hasRole (memberRoles i.member) JuiceworksRoleId = false →
      checkCommandCaller i =
        ([Effect.respond "This command can only be used by Juiceworks members." true],
         some "command was called by a non-Juiceworks member")) ∧
    (∀ t e, checkCommandCaller i = (t, some e) →
      (makeChannel w i).1 =
        t ++ [Effect.logLine ("Command caller check failed on makeChannel: " ++ e)] ∧
      (addMember w i).1 =
        t ++ [Effect.logLine ("Command caller check failed on addMember: " ++ e)] ∧
      (makeChannel w i).1.filter isApiCall = [] ∧
      (addMember w i).1.filter isApiCall = []) := by
  refine ⟨guard_success_iff i, ?_, ?_, ?_⟩
  · intro h
    unfold checkCommandCaller
    rw [if_pos h]
  · intro hg hm hr
    have hne : ¬ (i.guildID ≠ JuiceworksGuildId ∨ i.member = none) := by
      push_neg
      exact ⟨hg, Option.ne_none_iff_isSome.mpr hm⟩
    unfold checkCommandCaller
    rw [if_neg hne, if_pos hr]
  · intro t e h
    have hmk : (makeChannel w i).1 =
        t ++ [Effect.logLine ("Command caller check failed on makeChannel: " ++ e)] := by
      unfold makeChannel
      rw [h]
    have had : (addMember w i).1 =
        t ++ [Effect.logLine ("Command caller check failed on addMember: " ++ e)] := by
      unfold addMember
      rw [h]
    refine ⟨hmk, had, ?_, ?_⟩
    · rw [hmk]
      rcases checkCommandCaller_shape i with h0 | h0 | h0 <;> rw [h0] at h
      · simp at h
      · injection h.symm with h1 h2
        subst h1
        simp [isApiCall]
      · injection h.symm with h1 h2
        subst h1
        simp [isApiCall]
    · rw [had]
      rcases checkCommandCaller_shape i with h0 | h0 | h0 <;> rw [h0] at h
      · simp at h
      · injection h.symm with h1 h2
        subst h1
        simp [isApiCall]
      · injection h.symm with h1 h2
        subst h1
        simp [isApiCall]

/-- Claim C4 witness: an invocation from a foreign guild is rejected with
the server-scope message and the handler performs no external call. -/
theorem C4_authorization_guard_witness :
    checkCommandCaller iBadGuild =
      ([Effect.respond "This command can only be used in the Juiceworks Discord server." true],
       some "command was called outside of the Juiceworks Discord server") ∧
    (makeChannel wAllOk iBadGuild).1.filter isApiCall = [] := by
  have h := (C4_authorization_guard wAllOk iBadGuild).2.1 (Or.inl (by decide))
  exact ⟨h, ((C4_authorization_guard wAllOk iBadGuild).2.2.2 _ _ h).2.2.1⟩

/-- Claim C8: channelPermissions returns to its caller exactly the error
of the underlying ChannelPermissionSet call; on failure it sends exactly
one ephemeral response carrying the error text and exactly one log line,
and on success it sends no response and no log line. -/
theorem C8_permission_applier (w : World) (cps : channelPermissionSetup) :
    ((channelPermissions w cps).2 =
      w.permissionSet cps.channelID cps.targetID cps.targetType cps.allow cps.deny) ∧
    (∀ e, w.permissionSet cps.channelID cps.targetID cps.targetType cps.allow cps.deny
        = some e →
      countResponses (channelPermissions w cps).1 = 1 ∧
      Effect.respond ("Error setting channel permissions: " ++ e) true
        ∈ (channelPermissions w cps).1 ∧
      countLogs (channelPermissions w cps).1 = 1) ∧
    (w.permissionSet cps.channelID cps.targetID cps.targetType cps.allow cps.deny = none →
      countResponses (channelPermissions w cps).1 = 0 ∧
      countLogs (channelPermissions w cps).1 = 0 ∧
      (channelPermissions w cps).2 = none) := by
  unfold channelPermissions
  cases h : w.permissionSet cps.channelID cps.targetID cps.targetType cps.allow cps.deny <;>
    simp [countResponses, countLogs, isRespond, isLogLine, List.filter]

/-- Claim C8 witness: a failing permission call produces exactly one
response and exactly one log line. -/
theorem C8_permission_applier_witness :
    countResponses (channelPermissions wPermFail
      { channelID := "777", targetID := "42",
        targetType := PermissionOverwriteType.member, allow := 3072, deny := 0 }).1 = 1 ∧
    countLogs (channelPermissions wPermFail
      { channelID := "777", targetID := "42",
        targetType := PermissionOverwriteType.member, allow := 3072, deny := 0 }).1 = 1 := by
  have h := (C8_permission_applier wPermFail
    { channelID := "777", targetID := "42",
      targetType := PermissionOverwriteType.member, allow := 3072, deny := 0 }).2.1 "boom" rfl
  exact ⟨h.1, h.2.2⟩

/-- Claim C9: an interaction whose command name is neither make-channel
nor add-member finds no handler in the commandHandlers map, and the
dispatcher produces no effect at all. -/
theorem C9_unknown_command_ignored (w : World) (i : Interaction)
    (h1 : i.commandName ≠ "make-channel") (h2 : i.commandName ≠ "add-member") :
    commandHandlers i.commandName = none ∧ onInteractionCreate w i = [] := by
  have hc : commandHandlers i.commandName = none := by
    unfold commandHandlers
    rw [if_neg h1, if_neg h2]
  refine ⟨hc, ?_⟩
  unfold onInteractionCreate
  rw [hc]

/-- Claim C9 witness: the dispatcher ignores the command name ping. -/
theorem C9_unknown_command_ignored_witness :
    commandHandlers iPing.commandName = none ∧ onInteractionCreate wAllOk iPing = [] :=
  C9_unknown_command_ignored wAllOk iPing (by decide) (by decide)

/-- Claim C1 is violated by the code: when the permission overwrite of
add-member fails, channelPermissions responds with the error and returns
it, and add-member then responds a second time to the same interaction;
the run below sends two responses. makeChannel handles the same failure
with a single response. -/
theorem C1_double_response_on_perm_failure :
    countResponses (addMember wPermFail iAddOk).1 = 2 ∧
    (addMember wPermFail iAddOk).1.filter isRespond =
      [Effect.respond "Error setting channel permissions: boom" true,
       Effect.respond "Error adding member to channel: boom" true] ∧
    (makeChannel wPermFail iMakeOk).2 = Outcome.permissionFailed ∧
    countResponses (makeChannel wPermFail iMakeOk).1 = 1 := by decide

lemma makeChannelWithName_outcome (w : World) (n : String) :
    (makeChannelWithName w n).2 = Outcome.nameLengthRejected ∨
    (makeChannelWithName w n).2 = Outcome.channelCreateFailed ∨
    (makeChannelWithName w n).2 = Outcome.permissionFailed ∨
    (makeChannelWithName w n).2 = Outcome.completed := by
  unfold makeChannelWithName
  split
  · left; rfl
  · rcases makeChannelCreate_outcome w n with h | h | h
    · right; left; exact h
    · right; right; left; exact h
    · right; right; right; exact h

/-- Claim C7: inside the configured internal channel, add-member never
performs a member fetch, role grant, or permission overwrite and always
ends at a rejection; when the caller is authorized the single response
is the internal-channel message. -/
theorem C7_internal_channel_always_rejected (w : World) (i : Interaction)
    (h : i.channelID = InternalChannelId) :
    (addMember w i).1.filter isApiCall = [] ∧
    ((addMember w i).2 = Outcome.guardFailed ∨
     (addMember w i).2 = Outcome.internalChannelRejected) ∧
    (checkCommandCaller i = ([], none) →
      (addMember w i).1 =
        [Effect.respond "This command cannot be used in the internal channel." true] ∧
      (addMember w i).2 = Outcome.internalChannelRejected) := by
  have hbody : addMemberBody w i =
      ([Effect.respond "This command cannot be used in the internal channel." true],
       Outcome.internalChannelRejected) := by
    unfold addMemberBody
    rw [if_pos h]
  rcases checkCommandCaller_shape i with h0 | h0 | h0
  · rw [addMember_guard_ok w i h0, hbody]
    exact ⟨by simp [isApiCall], Or.inr rfl, fun _ => ⟨rfl, rfl⟩⟩
  · have hA : addMember w i =
        ([Effect.respond "This command can only be used in the Juiceworks Discord server." true,
          Effect.logLine ("Command caller check failed on addMember: " ++
            "command was called outside of the Juiceworks Discord server")],
         Outcome.guardFailed) := by
      unfold addMember
      rw [h0]
      simp
    rw [hA]
    refine ⟨by simp [isApiCall], Or.inl rfl, ?_⟩
    intro hok
    rw [h0] at hok
    simp at hok
  · have hA : addMember w i =
        ([Effect.respond "This command can only be used by Juiceworks members." true,
          Effect.logLine ("Command caller check failed on addMember: " ++
            "command was called by a non-Juiceworks member")],
         Outcome.guardFailed) := by
      unfold addMember
      rw [h0]
      simp
    rw [hA]
    refine ⟨by simp [isApiCall], Or.inl rfl, ?_⟩
    intro hok
    rw [h0] at hok
    simp at hok

/-- Claim C7 witness: the authorized internal-channel invocation gets the
internal-channel message and performs no external call. -/
theorem C7_internal_channel_always_rejected_witness :
    (addMember wAllOk iInternal).1.filter isApiCall = [] ∧
    (addMember wAllOk iInternal).1 =
      [Effect.respond "This command cannot be used in the internal channel." true] := by
  have h := C7_internal_channel_always_rejected wAllOk iInternal rfl
  exact ⟨h.1, (h.2.2 (by decide)).1⟩

/-- Claim C2 as stated is false: with two string-typed options, the
option count is not one, yet make-channel proceeds past option
validation, creates the channel from the first option, and never sends
the channel-name rejection. -/
theorem C2_counterexample :
    iTwoOptions.options.length = 2 ∧
    (makeChannel wAllOk iTwoOptions).2 ≠ Outcome.optionsRejected ∧
    Effect.apiChannelCreate JuiceworksGuildId "my-project"
      ∈ (makeChannel wAllOk iTwoOptions).1 ∧
    Effect.respond "This command requires a channel name." true
      ∉ (makeChannel wAllOk iTwoOptions).1 := by decide

/-- Claim C2 amended: each handler proceeds past option validation iff
at least one option is present and the first option has the required
type (string for make-channel, user for add-member); otherwise it sends
its specific ephemeral rejection and returns. -/
theorem C2_option_validation (w : World) (i : Interaction)
    (hG : checkCommandCaller i = ([], none))
    (hCh : i.channelID ≠ InternalChannelId) :
    ((makeChannel w i).2 ≠ Outcome.optionsRejected ↔
      (i.options.length ≠ 0 ∧
       (i.options.headD CmdOption.other).optType = ApplicationCommandOptionType.string)) ∧
    ((makeChannel w i).2 = Outcome.optionsRejected →
      (makeChannel w i).1 = [Effect.respond "This command requires a channel name." true]) ∧
    ((addMember w i).2 ≠ Outcome.optionsRejected ↔
      (i.options.length ≠ 0 ∧
       (i.options.headD CmdOption.other).optType = ApplicationCommandOptionType.user)) ∧
    ((addMember w i).2 = Outcome.optionsRejected →
      (addMember w i).1 = [Effect.respond "This command requires a user." true]) := by
  rw [makeChannel_guard_ok w i hG, addMember_guard_ok w i hG]
  unfold makeChannelBody addMemberBody
  rw [if_neg hCh]
  have hamout : (addMemberWithUser w i.channelID
      (i.options.headD CmdOption.other).userValue).2 ≠ Outcome.optionsRejected := by
    rcases addMemberWithUser_outcome w i.channelID
        (i.options.headD CmdOption.other).userValue with h | h | h | h <;>
      rw [h] <;> simp
  have hmout : (makeChannelWithName w
      (normalizeChannelName (i.options.headD CmdOption.other).stringValue)).2
      ≠ Outcome.optionsRejected := by
    rcases makeChannelWithName_outcome w
        (normalizeChannelName (i.options.headD CmdOption.other).stringValue)
      with h | h | h | h <;> rw [h] <;> simp
  by_cases hmc : i.options.length = 0 ∨
      (i.options.headD CmdOption.other).optType ≠ ApplicationCommandOptionType.string
  · rw [if_pos hmc]
    have hmcA : ¬ (i.options.length ≠ 0 ∧
        (i.options.headD CmdOption.other).optType = ApplicationCommandOptionType.string) :=
      fun hp => (hmc.resolve_left hp.1) hp.2
    by_cases ham : i.options.length = 0 ∨
        (i.options.headD CmdOption.other).optType ≠ ApplicationCommandOptionType.user
    · rw [if_pos ham]
      have hamA : ¬ (i.options.length ≠ 0 ∧
          (i.options.headD CmdOption.other).optType = ApplicationCommandOptionType.user) :=
        fun hp => (ham.resolve_left hp.1) hp.2
      exact ⟨iff_of_false (by simp) hmcA, fun _ => rfl,
             iff_of_false (by simp) hamA, fun _ => rfl⟩
    · rw [if_neg ham]
      push_neg at ham
      exact ⟨iff_of_false (by simp) hmcA, fun _ => rfl,
             iff_of_true hamout ⟨ham.1, ham.2⟩,
             fun h => absurd h hamout⟩
  · rw [if_neg hmc]
    push_neg at hmc
    by_cases ham : i.options.length = 0 ∨
        (i.options.headD CmdOption.other).optType ≠ ApplicationCommandOptionType.user
    · rw [if_pos ham]
      have hamA : ¬ (i.options.length ≠ 0 ∧
          (i.options.headD CmdOption.other).optType = ApplicationCommandOptionType.user) :=
        fun hp => (ham.resolve_left hp.1) hp.2
      exact ⟨iff_of_true hmout ⟨hmc.1, hmc.2⟩, fun h => absurd h hmout,
             iff_of_false (by simp) hamA, fun _ => rfl⟩
    · rw [if_neg ham]
      push_neg at ham
      exact ⟨iff_of_true hmout ⟨hmc.1, hmc.2⟩, fun h => absurd h hmout,
             iff_of_true hamout ⟨ham.1, ham.2⟩, fun h => absurd h hamout⟩

/-- Claim C2 witness: with no options, make-channel is rejected with the
channel-name message. -/
theorem C2_option_validation_witness :
    (makeChannel wAllOk iNoOptions).2 = Outcome.optionsRejected ∧
    (makeChannel wAllOk iNoOptions).1 =
      [Effect.respond "This command requires a channel name." true] :=
  ⟨by decide,
   (C2_option_validation wAllOk iNoOptions (by decide) (by decide)).2.1 (by decide)⟩

lemma channelPermissions_fail (w : World) (cps : channelPermissionSetup) (e : String)
    (h : w.permissionSet cps.channelID cps.targetID cps.targetType cps.allow cps.deny
      = some e) :
    channelPermissions w cps =
      ([Effect.apiPermSet cps.channelID cps.targetID cps.targetType cps.allow cps.deny,
        Effect.respond ("Error setting channel permissions: " ++ e) true,
        Effect.logLine ("Error setting channel permissions: " ++ e)],
       some e) := by
  unfold channelPermissions
  rw [h]

lemma channelPermissions_ok (w : World) (cps : channelPermissionSetup)
    (h : w.permissionSet cps.channelID cps.targetID cps.targetType cps.allow cps.deny
      = none) :
    channelPermissions w cps =
      ([Effect.apiPermSet cps.channelID cps.targetID cps.targetType cps.allow cps.deny],
       none) := by
  unfold channelPermissions
  rw [h]

lemma makeChannel_with_single_string (w : World) (i : Interaction) (name : String)
    (hG : checkCommandCaller i = ([], none))
    (hO : i.options = [CmdOption.str name]) :
    makeChannel w i = makeChannelWithName w (normalizeChannelName name) := by
  rw [makeChannel_guard_ok w i hG]
  unfold makeChannelBody
  rw [hO]
  simp [CmdOption.optType, CmdOption.stringValue]

lemma addMember_with_single_user (w : World) (i : Interaction) (u : User)
    (hG : checkCommandCaller i = ([], none))
    (hCh : i.channelID ≠ InternalChannelId)
    (hO : i.options = [CmdOption.user u]) :
    addMember w i = addMemberWithUser w i.channelID u := by
  rw [addMember_guard_ok w i hG]
  unfold addMemberBody
  rw [if_neg hCh, hO]
  simp [CmdOption.optType, CmdOption.userValue]

/-- Claim C3 as stated is false: the code measures the normalized name
in UTF-8 bytes (Go len on a string), not in characters. The one-character
name below normalizes to itself, so by the claim it must be rejected as
too short, yet its two-byte encoding passes the check and the channel is
created. -/
theorem C3_byte_length_counterexample :
    normalizeChannelName "é" = "é" ∧
    ("é" : String).length = 1 ∧
    (makeChannel wAllOk iEAcute).2 = Outcome.completed ∧
    Effect.apiChannelCreate JuiceworksGuildId "é" ∈ (makeChannel wAllOk iEAcute).1 ∧
    Effect.respond "Channel name must be between 2 and 100 characters." true
      ∉ (makeChannel wAllOk iEAcute).1 := by decide

/-- Claim C3 amended: make-channel normalizes the name as trim, then
lower-case, then space-to-hyphen, and accepts iff the UTF-8 byte length
of the normalized result is between 2 and 100 inclusive (equal to the
character count for ASCII names); out-of-range names get the ephemeral
length rejection. -/
theorem C3_normalization_and_length (w : World) (i : Interaction) (name : String)
    (hG : checkCommandCaller i = ([], none))
    (hO : i.options = [CmdOption.str name]) :
    normalizeChannelName name = goReplaceSpaces (goToLower (goTrimSpace name)) ∧
    ((makeChannel w i).2 ≠ Outcome.optionsRejected ∧
       (makeChannel w i).2 ≠ Outcome.nameLengthRejected ↔
     2 ≤ (normalizeChannelName name).utf8ByteSize ∧
       (normalizeChannelName name).utf8ByteSize ≤ 100) ∧
    (¬ (2 ≤ (normalizeChannelName name).utf8ByteSize ∧
          (normalizeChannelName name).utf8ByteSize ≤ 100) →
      (makeChannel w i).1 =
        [Effect.respond "Channel name must be between 2 and 100 characters." true]) := by
  rw [makeChannel_with_single_string w i name hG hO]
  refine ⟨rfl, ?_, ?_⟩
  · unfold makeChannelWithName
    by_cases hlen : (normalizeChannelName name).utf8ByteSize < 2 ∨
        (normalizeChannelName name).utf8ByteSize > 100
    · rw [if_pos hlen]
      exact iff_of_false (fun hp => hp.2 rfl) (by omega)
    · rw [if_neg hlen]
      push_neg at hlen
      refine iff_of_true ?_ ⟨hlen.1, hlen.2⟩
      rcases makeChannelCreate_outcome w (normalizeChannelName name) with h | h | h <;>
        rw [h] <;> exact ⟨by decide, by decide⟩
  · intro hout
    unfold makeChannelWithName
    rw [if_pos (by omega)]

/-- Claim C3 witness: the one-byte name x is rejected with the length
message, and so is the two-byte dotted capital I, which normalizes to
the one-byte i exactly as Go lower-cases it. -/
theorem C3_normalization_and_length_witness :
    (makeChannel wAllOk iXName).1 =
      [Effect.respond "Channel name must be between 2 and 100 characters." true] ∧
    normalizeChannelName "İ" = "i" ∧
    (makeChannel wAllOk iTurkishI).1 =
      [Effect.respond "Channel name must be between 2 and 100 characters." true] :=
  ⟨(C3_normalization_and_length wAllOk iXName "x" (by decide) rfl).2.2 (by decide),
   by decide,
   (C3_normalization_and_length wAllOk iTurkishI "İ" (by decide) rfl).2.2 (by decide)⟩

/-- Claim C5: after a fully successful make-channel run exactly two
permission overwrites were applied to the new channel, in order: the
community role granted view and send, then the guild's default role (the
guild identifier as overwrite subject) denied view; if channel creation
fails no overwrite is attempted, if the first overwrite fails the second
is never attempted, and on full success the handler responds with the
created-channel message. -/
theorem C5_make_channel_overwrites (w : World) (i : Interaction) (name : String)
    (hG : checkCommandCaller i = ([], none))
    (hO : i.options = [CmdOption.str name])
    (hLen : 2 ≤ (normalizeChannelName name).utf8ByteSize ∧
            (normalizeChannelName name).utf8ByteSize ≤ 100) :
    (∀ e, w.channelCreate JuiceworksGuildId (normalizeChannelName name) = .error e →
      (makeChannel w i).1 =
        [Effect.apiChannelCreate JuiceworksGuildId (normalizeChannelName name),
         Effect.respond ("Error creating channel: " ++ e) true] ∧
      (makeChannel w i).1.filter isPermSet = []) ∧
    (∀ c, w.channelCreate JuiceworksGuildId (normalizeChannelName name) = .ok c →
      (∀ e, w.permissionSet c.id JuiceworksRoleId PermissionOverwriteType.role
          (PermissionViewChannel ||| PermissionSendMessages) 0 = some e →
        (makeChannel w i).1.filter isPermSet =
          [Effect.apiPermSet c.id JuiceworksRoleId PermissionOverwriteType.role
            (PermissionViewChannel ||| PermissionSendMessages) 0] ∧
        (makeChannel w i).2 = Outcome.permissionFailed) ∧
      (w.permissionSet c.id JuiceworksRoleId PermissionOverwriteType.role
          (PermissionViewChannel ||| PermissionSendMessages) 0 = none →
       w.permissionSet c.id JuiceworksGuildId PermissionOverwriteType.role
          0 PermissionViewChannel = none →
        (makeChannel w i).1 =
          [Effect.apiChannelCreate JuiceworksGuildId (normalizeChannelName name),
           Effect.apiPermSet c.id JuiceworksRoleId PermissionOverwriteType.role
             (PermissionViewChannel ||| PermissionSendMessages) 0,
           Effect.apiPermSet c.id JuiceworksGuildId PermissionOverwriteType.role
             0 PermissionViewChannel,
           Effect.logLine ("Created channel: " ++ c.name),
           Effect.respond ("Created channel: #" ++ c.name) true] ∧
        (makeChannel w i).2 = Outcome.completed)) := by
  have hmk : makeChannel w i = makeChannelCreate w (normalizeChannelName name) := by
    rw [makeChannel_with_single_string w i name hG hO]
    unfold makeChannelWithName
    rw [if_neg (by omega)]
  rw [hmk]
  constructor
  · intro e hC
    simp only [makeChannelCreate, hC]
    simp [isPermSet]
  · intro c hC
    constructor
    · intro e hP1
      have hcp := channelPermissions_fail w
        { channelID := c.id, targetID := JuiceworksRoleId,
          targetType := PermissionOverwriteType.role,
          allow := PermissionViewChannel ||| PermissionSendMessages, deny := 0 } e hP1
      simp only [makeChannelCreate, hC, hcp]
      simp [isPermSet]
    · intro hP1 hP2
      have hcp1 := channelPermissions_ok w
        { channelID := c.id, targetID := JuiceworksRoleId,
          targetType := PermissionOverwriteType.role,
          allow := PermissionViewChannel ||| PermissionSendMessages, deny := 0 } hP1
      have hcp2 := channelPermissions_ok w
        { channelID := c.id, targetID := JuiceworksGuildId,
          targetType := PermissionOverwriteType.role,
          allow := 0, deny := PermissionViewChannel } hP2
      simp only [makeChannelCreate, hC, hcp1, hcp2]
      simp

/-- Claim C5 witness: the end-to-end success run creates the channel,
applies the two overwrites in order and responds with the channel name. -/
theorem C5_make_channel_overwrites_witness :
    (makeChannel wAllOk iMakeOk).1 =
      [Effect.apiChannelCreate JuiceworksGuildId "my-project",
       Effect.apiPermSet "900" JuiceworksRoleId PermissionOverwriteType.role 3072 0,
       Effect.apiPermSet "900" JuiceworksGuildId PermissionOverwriteType.role 0 1024,
       Effect.logLine "Created channel: my-project",
       Effect.respond "Created channel: #my-project" true] ∧
    (makeChannel wAllOk iMakeOk).2 = Outcome.completed := by
  have h := ((C5_make_channel_overwrites wAllOk iMakeOk "  My Project  "
      (by decide) rfl (by decide)).2
      { id := "900", name := "my-project" } rfl).2 rfl rfl
  refine ⟨?_, h.2⟩
  rw [h.1]
  decide

/-- Claim C6: when the fetched target holds the service-provider role the
project-creator grant is skipped but the channel overwrite is still
attempted; when the target lacks it, the grant happens before the
overwrite, and a failed grant means the overwrite is never attempted. -/
theorem C6_add_member_role_logic (w : World) (i : Interaction) (u : User) (m : Member)
    (hG : checkCommandCaller i = ([], none))
    (hCh : i.channelID ≠ InternalChannelId)
    (hO : i.options = [CmdOption.user u])
    (hM : w.guildMember JuiceworksGuildId u.id = .ok m) :
    (hasRole m.roles ServicesRoleId = true →
      (addMember w i).1.filter isRoleAdd = [] ∧
      Effect.apiPermSet i.channelID u.id PermissionOverwriteType.member
        (PermissionViewChannel ||| PermissionSendMessages) 0 ∈ (addMember w i).1) ∧
    (hasRole m.roles ServicesRoleId = false →
      (∀ e, w.roleAdd JuiceworksGuildId u.id ProjectCreatorRoleId = some e →
        (addMember w i).1 =
          [Effect.apiGuildMember JuiceworksGuildId u.id,
           Effect.apiRoleAdd JuiceworksGuildId u.id ProjectCreatorRoleId,
           Effect.logLine ("Error granting Project Creator role: " ++ e),
           Effect.respond ("Error granting Project Creator role: " ++ e) true] ∧
        (addMember w i).1.filter isPermSet = []) ∧
      (w.roleAdd JuiceworksGuildId u.id ProjectCreatorRoleId = none →
        ∃ rest, (addMember w i).1 =
          Effect.apiGuildMember JuiceworksGuildId u.id ::
          Effect.apiRoleAdd JuiceworksGuildId u.id ProjectCreatorRoleId ::
          Effect.apiPermSet i.channelID u.id PermissionOverwriteType.member
            (PermissionViewChannel ||| PermissionSendMessages) 0 :: rest)) := by
  rw [addMember_with_single_user w i u hG hCh hO]
  constructor
  · intro hSP
    cases hP : w.permissionSet i.channelID u.id PermissionOverwriteType.member
        (PermissionViewChannel ||| PermissionSendMessages) 0 with
    | none =>
      have hcp := channelPermissions_ok w
        { channelID := i.channelID, targetID := u.id,
          targetType := PermissionOverwriteType.member,
          allow := PermissionViewChannel ||| PermissionSendMessages, deny := 0 } hP
      simp only [addMemberWithUser, hM, hSP, if_true, addMemberPermission, hcp]
      exact ⟨by simp [isRoleAdd], by simp⟩
    | some e =>
      have hcp := channelPermissions_fail w
        { channelID := i.channelID, targetID := u.id,
          targetType := PermissionOverwriteType.member,
          allow := PermissionViewChannel ||| PermissionSendMessages, deny := 0 } e hP
      simp only [addMemberWithUser, hM, hSP, if_true, addMemberPermission, hcp]
      exact ⟨by simp [isRoleAdd], by simp⟩
  · intro hSP
    constructor
    · intro e hAdd
      simp only [addMemberWithUser, hM, hSP, addMemberPermission, hAdd]
      exact ⟨by simp, by simp [isPermSet]⟩
    · intro hAdd
      cases hP : w.permissionSet i.channelID u.id PermissionOverwriteType.member
          (PermissionViewChannel ||| PermissionSendMessages) 0 with
      | none =>
        have hcp := channelPermissions_ok w
          { channelID := i.channelID, targetID := u.id,
            targetType := PermissionOverwriteType.member,
            allow := PermissionViewChannel ||| PermissionSendMessages, deny := 0 } hP
        refine ⟨[Effect.logLine ("Added " ++ u.username ++ " (" ++ User.mention u
            ++ ") to channel " ++ i.channelID ++ "."),
          Effect.respond ("Added " ++ User.mention u ++ " to the channel.") true], ?_⟩
        simp only [addMemberWithUser, hM, hSP, hAdd, addMemberPermission, hcp]
        simp
      | some e =>
        have hcp := channelPermissions_fail w
          { channelID := i.channelID, targetID := u.id,
            targetType := PermissionOverwriteType.member,
            allow := PermissionViewChannel ||| PermissionSendMessages, deny := 0 } e hP
        refine ⟨[Effect.respond ("Error setting channel permissions: " ++ e) true,
          Effect.logLine ("Error setting channel permissions: " ++ e),
          Effect.logLine ("Error adding member to channel: " ++ e),
          Effect.respond ("Error adding member to channel: " ++ e) true], ?_⟩
        simp only [addMemberWithUser, hM, hSP, hAdd, addMemberPermission, hcp]
        simp

/-- Claim C6 witness: on a service-provider target no role is granted
and the channel overwrite is still applied. -/
theorem C6_add_member_role_logic_witness :
    (addMember wServiceTarget iAddOk).1.filter isRoleAdd = [] ∧
    Effect.apiPermSet "777" "42" PermissionOverwriteType.member 3072 0
      ∈ (addMember wServiceTarget iAddOk).1 := by
  have h := (C6_add_member_role_logic wServiceTarget iAddOk uAlice
      { roles := [ServicesRoleId] } (by decide) (by decide) rfl rfl).1 (by decide)
  exact ⟨h.1, h.2⟩

/-- Claim C10: when the project-creator grant succeeded and the channel
overwrite then fails, add-member ends at the permission-failure return
with error responses, and the effect trace — which enumerates every call
the code can make, none of which removes a role — still contains the one
role grant: nothing reverts it. -/
theorem C10_role_grant_not_rolled_back (w : World) (i : Interaction) (u : User)
    (m : Member) (e : String)
    (hG : checkCommandCaller i = ([], none))
    (hCh : i.channelID ≠ InternalChannelId)
    (hO : i.options = [CmdOption.user u])
    (hM : w.guildMember JuiceworksGuildId u.id = .ok m)
    (hSP : hasRole m.roles ServicesRoleId = false)
    (hAdd : w.roleAdd JuiceworksGuildId u.id ProjectCreatorRoleId = none)
    (hPerm : w.permissionSet i.channelID u.id PermissionOverwriteType.member
        (PermissionViewChannel ||| PermissionSendMessages) 0 = some e) :
    (addMember w i).2 = Outcome.permissionFailed ∧
    (addMember w i).1 =
      [Effect.apiGuildMember JuiceworksGuildId u.id,
       Effect.apiRoleAdd JuiceworksGuildId u.id ProjectCreatorRoleId,
       Effect.apiPermSet i.channelID u.id PermissionOverwriteType.member
         (PermissionViewChannel ||| PermissionSendMessages) 0,
       Effect.respond ("Error setting channel permissions: " ++ e) true,
       Effect.logLine ("Error setting channel permissions: " ++ e),
       Effect.logLine ("Error adding member to channel: " ++ e),
       Effect.respond ("Error adding member to channel: " ++ e) true] ∧
    ((addMember w i).1.filter isRoleAdd).length = 1 := by
  rw [addMember_with_single_user w i u hG hCh hO]
  have hcp := channelPermissions_fail w
    { channelID := i.channelID, targetID := u.id,
      targetType := PermissionOverwriteType.member,
      allow := PermissionViewChannel ||| PermissionSendMessages, deny := 0 } e hPerm
  simp only [addMemberWithUser, hM, hSP, hAdd, addMemberPermission, hcp]
  exact ⟨rfl, by simp, by simp [isRoleAdd]⟩

/-- Claim C10 witness: the concrete failing run keeps the role grant in
its trace while ending at the permission failure. -/
theorem C10_role_grant_not_rolled_back_witness :
    (addMember wPermFail iAddOk).2 = Outcome.permissionFailed ∧
    ((addMember wPermFail iAddOk).1.filter isRoleAdd).length = 1 := by
  have h := C10_role_grant_not_rolled_back wPermFail iAddOk uAlice { roles := [] } "boom"
      (by decide) (by decide) rfl rfl rfl rfl rfl
  exact ⟨h.1, h.2.2⟩
